import Mathlib

/-!
A shallow embedding of the `examsApi` HTTP service (Express + Mongoose,
four source variants).  The handlers below are translated from
`src/unnamed/part_001` (the variant exposing `PUT /exams/add-question` and
`DELETE /exams/remove-question`), from `src/unnamed/part_000` (second
variant, same add-question handler) and from `src/api/exams.js` (second
variant: the multipart upload `POST /exams`).

The document store (MongoDB via Mongoose) is an external collaborator; it
is modelled as an ordered list of exam documents.  `findOne` /
`findOneAndUpdate` take the first document matching the five-field filter,
as the spec's ordering/tie-break note describes.  Mongoose validation of
the embedded question schema (`question` required, `choices` with the
`val.length >= 2` validator, per the schema at `src/unnamed/part_001`
lines 27-47) is modelled where Mongoose runs it: the update validators of
`findOneAndUpdate` (`runValidators: true`) validate the pushed
subdocument client-side before the command is issued, so they reject even
when no document would match, and they check only the pushed element;
`doc.save()` and `new Exam(...).save()` re-validate the whole document
(`validateBeforeSave` on, `validateModifiedOnly` off), so a pre-existing
invalid question blocks an otherwise well-formed removal.  A validation
failure surfaces on the handler's catch path (500 for add-question and
remove-question, 400 for create).

JavaScript value coercions that the handlers rely on are modelled
explicitly: the request's `index` field is a JSON value (number or
string), relational comparisons use JS `ToNumber` — implemented below
over the full `StringNumericLiteral` grammar (signed decimals with
fraction and exponent, radix literals, `Infinity`, whitespace trimming),
with exact values, so a string is NaN exactly when the grammar rejects
it — and `Array.prototype.splice` coerces its start argument with
`ToIntegerOrInfinity` (NaN becomes 0, fractions truncate toward zero).
-/

/-- An embedded question, per the exam schema of `src/unnamed/part_001`:
`question` (required string), `choices` (string array), optional `image`. -/
structure Question where
  question : String
  choices : List String
  image : Option String := none
deriving Repr, DecidableEq

/-- An exam document: five metadata strings and the ordered question list
(field `exam` in the schema). -/
structure Exam where
  division : String
  level : String
  term : String
  subject : String
  year : String
  exam : List Question
deriving Repr, DecidableEq

/-- The document store: the collection of exam documents, in the order the
store returns them (first match wins for filter-based operations). -/
abbrev Store := List Exam

/-- The five-field metadata filter `{ division, level, term, subject, year }`
used by `findOne` / `findOneAndUpdate`. -/
def matchesFilter (d l t s y : String) (e : Exam) : Bool :=
  e.division = d && e.level = l && e.term = t && e.subject = s && e.year = y

/-- Saving the mutated document (`doc.save()`) found by the filter: replaces
the first matching document in the store. -/
def replaceFirst (p : Exam → Bool) (x : Exam) : Store → Store
  | [] => []
  | a :: as => if p a then x :: as else a :: replaceFirst p x as

/-- Mongoose validation of one embedded question: `question` is required
(non-empty) and the `choices` validator demands at least two entries
(`src/unnamed/part_001` lines 36-46). -/
def validQuestion (q : Question) : Bool :=
  q.question ≠ "" && q.choices.length ≥ 2

/-- Mongoose validation of a whole exam document, as `doc.save()` runs it
(`validateBeforeSave` on, `validateModifiedOnly` off): the five required
metadata strings must be non-empty and every embedded question — not only
a modified one — must pass `validQuestion`. -/
def validExam (e : Exam) : Bool :=
  e.division ≠ "" && e.level ≠ "" && e.term ≠ "" && e.subject ≠ "" &&
  e.year ≠ "" && e.exam.all validQuestion

/-- A JSON scalar as it reaches the handler in `req.body.index`: a number
or a string (the fragment of JS values the claims exercise). -/
inductive JValue where
  | num (n : Int)
  | str (s : String)
deriving Repr, DecidableEq

/-- An exact (unnormalised) fraction: `num / den` with `den` positive in
every value the definitions below construct (denominators are powers of
ten, or 1). -/
structure JSRat where
  num : Int
  den : Nat
deriving Repr, DecidableEq

/-- A non-NaN JS number, represented exactly: a finite value as a
fraction, or an infinity (from `"Infinity"`).  IEEE-754 double rounding is
not modelled: a parsed literal keeps its exact value.  No theorem below
depends on the value of a fractional or large literal — only on
NaN-versus-number, which rounding never changes — so the exact model
decides every quantified statement as the doubles would. -/
inductive JSNum where
  | fin (q : JSRat)
  | posInf
  | negInf
deriving Repr, DecidableEq

/-- JS whitespace and line terminators stripped by `ToNumber` before
parsing (ECMA `TrimString`): ASCII whitespace plus the Unicode space
separators, NBSP, the line separators and the BOM. -/
def isJsWs (c : Char) : Bool :=
  c = ' ' || c = '\t' || c = '\n' || c = '\r' || c = '\x0b' || c = '\x0c' ||
  c = '\u00a0' || c = '\u1680' ||
  ('\u2000' ≤ c && c ≤ '\u200a') ||
  c = '\u2028' || c = '\u2029' || c = '\u202f' || c = '\u205f' ||
  c = '\u3000' || c = '\ufeff'

/-- Trim leading and trailing whitespace from a character list. -/
def trimChars (cs : List Char) : List Char :=
  ((cs.dropWhile isJsWs).reverse.dropWhile isJsWs).reverse

/-- The value of a run of decimal digits. -/
def decVal (cs : List Char) : Nat :=
  cs.foldl (fun acc c => acc * 10 + (c.toNat - 48)) 0

/-- The value of one digit in the given radix (`0-9`, `a-f`, `A-F`), when
it is a digit of that radix. -/
def charDigit (radix : Nat) (c : Char) : Option Nat :=
  let v :=
    if c.isDigit then some (c.toNat - 48)
    else if 'a' ≤ c && c ≤ 'f' then some (c.toNat - 87)
    else if 'A' ≤ c && c ≤ 'F' then some (c.toNat - 55)
    else none
  match v with
  | some dg => if dg < radix then some dg else none
  | none => none

/-- The value of a non-empty run of digits in the given radix; `none` when
empty or when any character is not a digit of that radix. -/
def parseRadixDigits (radix : Nat) (cs : List Char) : Option Nat :=
  if cs.isEmpty then none
  else cs.foldl
    (fun acc? c => acc?.bind fun acc => (charDigit radix c).map fun dg => acc * radix + dg)
    (some 0)

/-- The optional `ExponentPart` closing a decimal literal: empty input
leaves the value unchanged; `e`/`E`, an optional sign and a non-empty
digit run scale it by the power of ten (numerator for a positive
exponent, denominator for a negative one); anything else fails. -/
def applyExponent (base : JSRat) : List Char → Option JSRat
  | [] => some base
  | c :: rest =>
      if c = 'e' || c = 'E' then
        let signed : List Char → Bool → Option JSRat := fun ds neg =>
          if ds ≠ [] && ds.all Char.isDigit then
            some (if neg then { num := base.num, den := base.den * 10 ^ decVal ds }
                  else { num := base.num * 10 ^ decVal ds, den := base.den })
          else none
        match rest with
        | '+' :: ds => signed ds false
        | '-' :: ds => signed ds true
        | ds => signed ds false
      else none

/-- An unsigned decimal literal body (ECMA `StrUnsignedDecimalLiteral`
without `Infinity`): `digits [. digits] [exp]` or `. digits [exp]`, the
whole input consumed; `none` when the input is not of this shape. -/
def parseDec (cs : List Char) : Option JSRat :=
  let intD := cs.takeWhile Char.isDigit
  let rest1 := cs.drop intD.length
  match rest1 with
  | '.' :: rest2 =>
      let fracD := rest2.takeWhile Char.isDigit
      let rest3 := rest2.drop fracD.length
      if intD.isEmpty && fracD.isEmpty then none
      else
        applyExponent
          { num := decVal intD * 10 ^ fracD.length + decVal fracD,
            den := 10 ^ fracD.length }
          rest3
  | _ =>
      if intD.isEmpty then none
      else applyExponent { num := decVal intD, den := 1 } rest1

/-- The spelling of `Infinity` after its first character. -/
def infinityTail : List Char := ['n', 'f', 'i', 'n', 'i', 't', 'y']

/-- A signed literal body: `Infinity` or a decimal literal, negated when
the consumed sign was `-`.  A radix prefix (`0x`, `0o`, `0b`) is not
permitted after a sign, exactly as in `StrDecimalLiteral`. -/
def parseSignedBody (cs : List Char) (neg : Bool) : Option JSNum :=
  match cs with
  | 'I' :: rest =>
      if rest = infinityTail then some (if neg then .negInf else .posInf) else none
  | _ =>
      (parseDec cs).map fun q =>
        .fin (if neg then { q with num := -q.num } else q)

/-- An unsigned literal body: `Infinity`, a `0x`/`0X`, `0o`/`0O` or
`0b`/`0B` radix literal, or a decimal literal. -/
def parseUnsignedBody (cs : List Char) : Option JSNum :=
  match cs with
  | 'I' :: rest => if rest = infinityTail then some .posInf else none
  | '0' :: c :: rest =>
      if c = 'x' || c = 'X' then
        (parseRadixDigits 16 rest).map fun n => .fin { num := n, den := 1 }
      else if c = 'o' || c = 'O' then
        (parseRadixDigits 8 rest).map fun n => .fin { num := n, den := 1 }
      else if c = 'b' || c = 'B' then
        (parseRadixDigits 2 rest).map fun n => .fin { num := n, den := 1 }
      else (parseDec cs).map .fin
  | _ => (parseDec cs).map .fin

/-- JS `ToNumber` on a string (ECMA `StringNumericLiteral`): trimmed; empty
is `0`; otherwise an optionally signed decimal literal (with fraction and
exponent), a signed `Infinity`, or an unsigned radix literal; any other
string is NaN, modelled as `none`. -/
def strToNumber (s : String) : Option JSNum :=
  match trimChars s.data with
  | [] => some (.fin { num := 0, den := 1 })
  | '+' :: rest => parseSignedBody rest false
  | '-' :: rest => parseSignedBody rest true
  | cs => parseUnsignedBody cs

/-- JS `ToNumber` of a JSON scalar; `none` is NaN. -/
def jsToNumber : JValue → Option JSNum
  | .num n => some (.fin { num := n, den := 1 })
  | .str s => strToNumber s

/-- The JS comparison `index < 0`: false when `ToNumber index` is NaN.
With a positive denominator, `num / den < 0` is `num < 0`. -/
def jsLtZero (v : JValue) : Bool :=
  match jsToNumber v with
  | some (.fin q) => q.num < 0
  | some .posInf => false
  | some .negInf => true
  | none => false

/-- The JS comparison `index >= len`: false when `ToNumber index` is NaN.
With a positive denominator, `num / den >= len` is `num >= len * den`. -/
def jsGeLen (v : JValue) (len : Nat) : Bool :=
  match jsToNumber v with
  | some (.fin q) => q.num ≥ (len : Int) * (q.den : Int)
  | some .posInf => true
  | some .negInf => false
  | none => false

/-- Truncation toward zero of a finite JS number
(`ToIntegerOrInfinity` on the finite case). -/
def jsTrunc (q : JSRat) : Int :=
  if 0 ≤ q.num then (q.num.toNat / q.den : Nat) else -((q.num.natAbs / q.den : Nat) : Int)

/-- The start position `Array.prototype.splice` actually uses:
`ToIntegerOrInfinity` of the argument (NaN becomes 0, infinities stay),
then negative values count back from the end with a floor of 0, and
others are capped at `len`. -/
def spliceStart (v : JValue) (len : Nat) : Nat :=
  match jsToNumber v with
  | none => 0
  | some .posInf => len
  | some .negInf => 0
  | some (.fin q) =>
      let n := jsTrunc q
      if n < 0 then (max ((len : Int) + n) 0).toNat else (min n (len : Int)).toNat

/-- JS `arr.splice(start, 1)` on the question list: removes the one element at
the coerced start position (no element when `start = len`). -/
def spliceRemoveOne (start : Nat) (l : List Question) : List Question :=
  l.take start ++ l.drop (start + 1)

/-- The body of `DELETE /exams/remove-question`
(`src/unnamed/part_001` lines 147-159): the five metadata fields and the
index, each absent or a value.  A string field is falsy when empty. -/
structure RemoveReq where
  division : Option String
  level : Option String
  term : Option String
  subject : Option String
  year : Option String
  index : Option JValue
deriving Repr, DecidableEq

/-- The responses the remove-question handler can produce.  The 500 arm
is the catch path: `exam.save()` throwing, in particular its document
re-validation failing. -/
inductive RemoveResult where
  | badRequest (msg : String)
  | notFound (msg : String)
  | serverError (msg : String)
  | ok (msg : String) (exam : Exam)
deriving Repr, DecidableEq

/-- The HTTP status code of a remove-question response. -/
def RemoveResult.status : RemoveResult → Nat
  | .badRequest _ => 400
  | .notFound _ => 404
  | .serverError _ => 500
  | .ok _ _ => 200

/-- Handler for `DELETE /exams/remove-question` (`src/unnamed/part_001` lines 147-179):
guard `!division || !level || !term || !subject || !year ||
index === undefined` (a present `index` of any value, `0` included, passes;
an empty metadata string fails); `findOne` on the five-field filter (404
when no match); the range guard `index < 0 || index >= exam.exam.length`
under JS coercion; then `exam.exam.splice(index, 1)` and `exam.save()`.
The save re-validates the whole document; when a question remaining after
the splice fails validation the save throws and the catch path answers
500 "Failed to remove question" with the store unchanged. -/
def removeQuestion (store : Store) (req : RemoveReq) : RemoveResult × Store :=
  match req.division, req.level, req.term, req.subject, req.year, req.index with
  | some d, some l, some t, some s, some y, some idx =>
    if d = "" || l = "" || t = "" || s = "" || y = "" then
      (.badRequest "All fields are required", store)
    else
      match store.find? (matchesFilter d l t s y) with
      | none => (.notFound "Exam document not found", store)
      | some e =>
        if jsLtZero idx || jsGeLen idx e.exam.length then
          (.badRequest "Invalid question index", store)
        else
          let e' : Exam :=
            { e with exam := spliceRemoveOne (spliceStart idx e.exam.length) e.exam }
          if validExam e' then
            (.ok "Question removed successfully" e',
              replaceFirst (matchesFilter d l t s y) e' store)
          else
            (.serverError "Failed to remove question", store)
  | _, _, _, _, _, _ => (.badRequest "All fields are required", store)

/-- The body of `PUT /exams/add-question` (`src/unnamed/part_001` line 112):
five metadata strings, a question string and a choices array, each possibly
absent.  Note `!choices` is false for an empty array (arrays are truthy),
so only an absent choices field fails the guard. -/
structure AddReq where
  division : Option String
  level : Option String
  term : Option String
  subject : Option String
  year : Option String
  question : Option String
  choices : Option (List String)
deriving Repr, DecidableEq

/-- The responses the add-question handler can produce. -/
inductive AddResult where
  | badRequest (msg : String)
  | notFound (msg : String)
  | serverError (msg : String)
  | ok (msg : String) (updatedExam : Exam)
deriving Repr, DecidableEq

/-- The HTTP status code of an add-question response. -/
def AddResult.status : AddResult → Nat
  | .badRequest _ => 400
  | .notFound _ => 404
  | .serverError _ => 500
  | .ok _ _ => 200

/-- Handler for `PUT /exams/add-question` (`src/unnamed/part_001` lines 111-144, same
handler in `src/unnamed/part_000` lines 257-291): guard `!division || ... ||
!question || !choices`; `findOneAndUpdate` on the five-field filter with
`$push: { exam: { question, choices } }` and `runValidators: true`.  The
update validators run client-side on the pushed subdocument before the
command is issued, so an invalid pushed question (fewer than two choices)
raises on the catch path, 500, with every document untouched and no match
attempted; with a valid question, no matching document yields 404, and
otherwise the question is appended and the updated document returned.
Only the pushed element is validated — pre-existing questions of the
matched document are not re-checked by an update. -/
def addQuestion (store : Store) (req : AddReq) : AddResult × Store :=
  match req.division, req.level, req.term, req.subject, req.year,
      req.question, req.choices with
  | some d, some l, some t, some s, some y, some q, some cs =>
    if d = "" || l = "" || t = "" || s = "" || y = "" || q = "" then
      (.badRequest "All fields are required", store)
    else
      let newQ : Question := { question := q, choices := cs }
      if validQuestion newQ then
        match store.find? (matchesFilter d l t s y) with
        | none => (.notFound "Exam document not found", store)
        | some e =>
          let e' : Exam := { e with exam := e.exam ++ [newQ] }
          (.ok "Question added successfully" e',
            replaceFirst (matchesFilter d l t s y) e' store)
      else
        (.serverError "Failed to add question", store)
  | _, _, _, _, _, _, _ => (.badRequest "All fields are required", store)

/-- The body of `POST /exams` (`src/unnamed/part_001` line 85): five
metadata strings and the `exam` question array, each possibly absent.
`!exam` is false for an empty array, so `exam: []` passes the guard. -/
structure CreateReq where
  division : Option String
  level : Option String
  term : Option String
  subject : Option String
  year : Option String
  exam : Option (List Question)
deriving Repr, DecidableEq

/-- The responses the create-exam handler can produce. -/
inductive CreateResult where
  | badRequest (msg : String)
  | created (msg : String)
deriving Repr, DecidableEq

/-- The HTTP status code of a create-exam response. -/
def CreateResult.status : CreateResult → Nat
  | .badRequest _ => 400
  | .created _ => 201

/-- Handler for `POST /exams` (`src/unnamed/part_001` lines 84-108, identical guard in
`src/api/exams.js` lines 81-86 and `src/unnamed/part_000` lines 83-108):
guard `!division || !level || !term || !subject || !year || !exam` before
any store interaction, then `newExam.save()`.  Saving validates the whole
document — required metadata (non-empty after the guard) and every
embedded question, vacuously true for an empty list; a validation failure
is caught as 400 "Failed to create exam". -/
def createExam (store : Store) (req : CreateReq) : CreateResult × Store :=
  match req.division, req.level, req.term, req.subject, req.year, req.exam with
  | some d, some l, some t, some s, some y, some qs =>
    if d = "" || l = "" || t = "" || s = "" || y = "" then
      (.badRequest "All fields are required", store)
    else
      let newExam : Exam :=
        { division := d, level := l, term := t, subject := s,
          year := y, exam := qs }
      if validExam newExam then
        (.created "Exam created successfully", store ++ [newExam])
      else
        (.badRequest "Failed to create exam", store)
  | _, _, _, _, _, _ => (.badRequest "All fields are required", store)

/-- The positional file-to-question binding of the multipart `POST /exams`
(`src/api/exams.js` lines 266-271): `JSON.parse(exam).map((item, index) =>
{ if (req.files[index]) { item.image = `/uploads/${filename}`; } return
item; })`.  `files` is the list of stored filenames in upload order. -/
def bindImages (files : List String) (qs : List Question) : List Question :=
  qs.mapIdx fun i item =>
    match files[i]? with
    | some f => { item with image := some ("/uploads/" ++ f) }
    | none => item

/-- One segment of an Express route pattern: a literal or a `:name`
parameter. -/
inductive Seg where
  | lit (s : String)
  | param (name : String)
deriving Repr, DecidableEq

/-- Whether one pattern segment matches one path segment. -/
def segMatches : Seg → String → Bool
  | .lit s, t => s = t
  | .param _, _ => true

/-- Whether a route pattern matches a path (segment lists of equal length,
segmentwise match). -/
def routeMatches : List Seg → List String → Bool
  | [], [] => true
  | p :: ps, t :: ts => segMatches p t && routeMatches ps ts
  | _, _ => false

/-- The handlers registered for the PUT method in the variants exposing
add-question. -/
inductive PutHandler where
  | addQuestion
  | updateById
deriving Repr, DecidableEq

/-- The PUT routes in registration order (`src/unnamed/part_001`:
`/exams/add-question` at line 111, `/exams/:id` at line 182; same order in
`src/unnamed/part_000` lines 257 and 294). -/
def putRoutes : List (List Seg × PutHandler) :=
  [([.lit "exams", .lit "add-question"], .addQuestion),
   ([.lit "exams", .param "id"], .updateById)]

/-- Express dispatch: the first registered route whose pattern matches the
request path receives the request. -/
def dispatchPut (path : List String) : Option PutHandler :=
  (putRoutes.find? fun r => routeMatches r.1 path).map (·.2)

section SanityChecks

def q1 : Question := { question := "2+2?", choices := ["3", "4"] }
def q2 : Question := { question := "3+3?", choices := ["5", "6"] }
def q3 : Question := { question := "4+4?", choices := ["7", "8"] }

def examA : Exam :=
  { division := "A", level := "1", term := "T1", subject := "Math",
    year := "2024", exam := [q1, q2, q3] }

/-- A question violating the minimum-choices validator, as the sibling
variants without that validator (`src/unnamed/part_000` first variant,
`src/api/exams.js`) can write into the shared `exams` collection. -/
def qBad : Question := { question := "bad?", choices := ["only"] }

/-- A stored exam whose second question fails the minimum-choices
validator. -/
def examBad : Exam :=
  { division := "A", level := "1", term := "T1", subject := "Math",
    year := "2024", exam := [q1, qBad] }

example : strToNumber "abc" = none := by decide
example : strToNumber "" = some (.fin { num := 0, den := 1 }) := by decide
example : strToNumber "  12  " = some (.fin { num := 12, den := 1 }) := by decide
example : strToNumber "-7" = some (.fin { num := -7, den := 1 }) := by decide
example : strToNumber "1.5" = some (.fin { num := 15, den := 10 }) := by decide
example : strToNumber "1e1" = some (.fin { num := 10, den := 1 }) := by decide
example : strToNumber ".5e+1" = some (.fin { num := 50, den := 10 }) := by decide
example : strToNumber "0x10" = some (.fin { num := 16, den := 1 }) := by decide
example : strToNumber "-0x10" = none := by decide
example : strToNumber "0b101" = some (.fin { num := 5, den := 1 }) := by decide
example : strToNumber "Infinity" = some .posInf := by decide
example : strToNumber "-Infinity" = some .negInf := by decide
example : strToNumber "1e" = none := by decide
example : strToNumber "1.2.3" = none := by decide
example : strToNumber "1 2" = none := by decide
example : jsTrunc { num := 3, den := 2 } = 1 := by decide
example : jsTrunc { num := -3, den := 2 } = -1 := by decide
example : jsLtZero (.str "-0.5") = true := by decide
example : jsGeLen (.str "1e1") 3 = true := by decide
example : spliceStart (.str "1.5") 3 = 1 := by decide
example : spliceStart (.str "Infinity") 3 = 3 := by decide

example :
    removeQuestion [examA]
      { division := some "A", level := some "1", term := some "T1",
        subject := some "Math", year := some "2024", index := some (.num 0) }
      = (.ok "Question removed successfully" { examA with exam := [q2, q3] },
         [{ examA with exam := [q2, q3] }]) := by decide

example :
    removeQuestion [examA]
      { division := some "A", level := some "1", term := some "T1",
        subject := some "Math", year := some "2024", index := some (.str "abc") }
      = (.ok "Question removed successfully" { examA with exam := [q2, q3] },
         [{ examA with exam := [q2, q3] }]) := by decide

example :
    (removeQuestion [examA]
      { division := some "A", level := some "1", term := some "T1",
        subject := some "Math", year := some "2024", index := some (.num 3) }).1
      = .badRequest "Invalid question index" := by decide

example :
    addQuestion [examA]
      { division := some "A", level := some "1", term := some "T1",
        subject := some "Math", year := some "2024",
        question := some "5+5?", choices := some ["9", "10"] }
      = (.ok "Question added successfully"
           { examA with exam := [q1, q2, q3, { question := "5+5?", choices := ["9", "10"] }] },
         [{ examA with exam := [q1, q2, q3, { question := "5+5?", choices := ["9", "10"] }] }]) := by
  decide

example :
    (addQuestion [examA]
      { division := some "A", level := some "1", term := some "T1",
        subject := some "Math", year := some "2024",
        question := some "5+5?", choices := some ["10"] }).1
      = .serverError "Failed to add question" := by decide

example :
    createExam []
      { division := some "A", level := some "1", term := some "T1",
        subject := some "Math", year := some "2024", exam := some [] }
      = (.created "Exam created successfully",
         [{ division := "A", level := "1", term := "T1", subject := "Math",
            year := "2024", exam := [] }]) := by decide

example :
    bindImages ["a.png"] [q1, q2]
      = [{ q1 with image := some "/uploads/a.png" }, q2] := by decide

example : dispatchPut ["exams", "add-question"] = some .addQuestion := by decide

end SanityChecks

/-- Removing one element by splice at an in-bounds-or-past-the-end start is
`List.eraseIdx`. -/
theorem spliceRemoveOne_eq_eraseIdx (start : Nat) (l : List Question) :
    spliceRemoveOne start l = l.eraseIdx start := by
  simp [spliceRemoveOne, List.eraseIdx_eq_take_drop_succ]

/-- C9: the literal route `PUT /exams/add-question` is registered before the
parameterised `PUT /exams/:id`, so a PUT to `/exams/add-question` always
dispatches to the append-question handler, even though the `:id` pattern also
matches that path (it would bind `id = "add-question"`); it is never
dispatched to the whole-exam update handler. -/
theorem addQuestion_route_shadows_update_by_id :
    dispatchPut ["exams", "add-question"] = some PutHandler.addQuestion ∧
    routeMatches [Seg.lit "exams", Seg.param "id"] ["exams", "add-question"] = true ∧
    dispatchPut ["exams", "add-question"] ≠ some PutHandler.updateById := by
  decide

/-- C8: in the multipart upload variant of create-exam, files bind to
questions positionally: position `i` of the result carries the question at
position `i` of the decoded list, with its `image` set from the file at
ordinal position `i` when one exists; when `i` is beyond the file list the
question is returned unchanged, so an absent `image` stays absent and no
error is raised (the binding is total). -/
theorem bindImages_positional (files : List String) (qs : List Question) (i : Nat) :
    (bindImages files qs).length = qs.length ∧
    (bindImages files qs)[i]? = (qs[i]?).map (fun item =>
      match files[i]? with
      | some f => { item with image := some ("/uploads/" ++ f) }
      | none => item) ∧
    (files.length ≤ i → (bindImages files qs)[i]? = qs[i]?) := by
  refine ⟨by simp [bindImages], by simp [bindImages], ?_⟩
  intro hf
  simp [bindImages, List.getElem?_eq_none hf]

/-- Closed witness for the C8 theorem: two questions, one file; the first
question receives the file's path, the second keeps its absent image. -/
theorem bindImages_positional_witness :
    ([("a.png" : String)].length ≤ 1 →
      (bindImages ["a.png"] [q1, q2])[1]? = [q1, q2][1]?) ∧
    (bindImages ["a.png"] [q1, q2])[1]? = some q2 ∧ q2.image = none := by
  refine ⟨(bindImages_positional ["a.png"] [q1, q2] 1).2.2, by decide, by decide⟩

/-- Splicing one element out at position 0 drops the head of the list. -/
theorem eraseIdx_zero_eq_tail (l : List Question) : l.eraseIdx 0 = l.tail := by
  cases l <;> rfl

/-- A document found by the five-field filter carries the filter's
metadata, so after replacing its question list with one whose members all
validate, the whole document revalidates (the metadata strings are the
request's, non-empty). -/
theorem validExam_of_matched (d l t s y : String) (e : Exam) (qs : List Question)
    (hd : d ≠ "") (hl : l ≠ "") (ht : t ≠ "") (hs : s ≠ "") (hy : y ≠ "")
    (hm : matchesFilter d l t s y e = true)
    (hq : qs.all validQuestion = true) :
    validExam { e with exam := qs } = true := by
  simp only [matchesFilter, Bool.and_eq_true, decide_eq_true_eq] at hm
  obtain ⟨⟨⟨⟨h1, h2⟩, h3⟩, h4⟩, h5⟩ := hm
  simp [validExam, h1, h2, h3, h4, h5, hd, hl, ht, hs, hy, hq]

/-- The truncation of an integer-valued fraction is the integer itself. -/
theorem jsTrunc_natCast (i : Nat) :
    jsTrunc { num := (i : Int), den := 1 } = (i : Int) := by
  unfold jsTrunc
  dsimp only
  rw [if_pos (by omega)]
  simp only [Nat.div_one]
  omega

/-- C1, counterexample to the claim as stated: the claim promises 200 for
every matched exam and in-range index, but `exam.save()` re-validates the
whole document, so removing the in-range index 0 from a matched document
that still holds a one-choice question (writable through the sibling
variants without the minimum-choices validator) fails re-validation and
answers 500, with the store unchanged. -/
theorem removeQuestion_in_range_sibling_invalid_500 :
    0 < examBad.exam.length ∧
    removeQuestion [examBad]
        { division := some "A", level := some "1", term := some "T1",
          subject := some "Math", year := some "2024", index := some (.num 0) }
      = (.serverError "Failed to remove question", [examBad]) ∧
    ((removeQuestion [examBad]
        { division := some "A", level := some "1", term := some "T1",
          subject := some "Math", year := some "2024",
          index := some (.num 0) }).1).status ≠ 200 := by
  decide

/-- C1 as amended: removing a question at an in-range index `i` from the
exam matched by the five metadata fields, provided the questions remaining
after the removal pass the embedded schema's validation (save re-validates
the whole document), returns 200, shrinks the question sequence by exactly
one, and shifts every question past position `i` down by one while
preserving the prefix below `i` (hence relative order). -/
theorem removeQuestion_in_range
    (store : Store) (d l t s y : String) (i : Nat) (e : Exam)
    (hd : d ≠ "") (hl : l ≠ "") (ht : t ≠ "") (hs : s ≠ "") (hy : y ≠ "")
    (hfind : store.find? (matchesFilter d l t s y) = some e)
    (hi : i < e.exam.length)
    (hrem : (e.exam.eraseIdx i).all validQuestion = true) :
    ((removeQuestion store
        { division := some d, level := some l, term := some t,
          subject := some s, year := some y,
          index := some (.num (i : Int)) }).1).status = 200 ∧
    ∃ e' : Exam,
      (removeQuestion store
          { division := some d, level := some l, term := some t,
            subject := some s, year := some y,
            index := some (.num (i : Int)) }).1
        = .ok "Question removed successfully" e' ∧
      e'.exam.length + 1 = e.exam.length ∧
      (∀ j : Nat, j < i → e'.exam[j]? = e.exam[j]?) ∧
      (∀ j : Nat, i ≤ j → e'.exam[j]? = e.exam[j + 1]?) := by
  have hval : validExam { e with exam := e.exam.eraseIdx i } = true :=
    validExam_of_matched d l t s y e _ hd hl ht hs hy (List.find?_some hfind) hrem
  have hguard : (jsLtZero (.num (i : Int)) || jsGeLen (.num (i : Int)) e.exam.length) = false := by
    simp only [jsLtZero, jsGeLen, jsToNumber, Bool.or_eq_false_iff,
      decide_eq_false_iff_not, not_lt, not_le]
    constructor <;> omega
  have hstart : spliceStart (.num (i : Int)) e.exam.length = i := by
    simp only [spliceStart, jsToNumber, jsTrunc_natCast]
    rw [if_neg (by omega)]
    omega
  unfold removeQuestion
  dsimp only
  rw [if_neg (by simp [hd, hl, ht, hs, hy]), hfind]
  dsimp only
  rw [if_neg (by simp [hguard]), hstart, spliceRemoveOne_eq_eraseIdx, if_pos hval]
  refine ⟨rfl, _, rfl, ?_, ?_, ?_⟩
  · simp only [List.length_eraseIdx, hi, if_pos]
    omega
  · intro j hj
    exact List.getElem?_eraseIdx_of_lt e.exam i j hj
  · intro j hj
    exact List.getElem?_eraseIdx_of_ge e.exam i j hj

/-- C3: for a matched exam, a numeric index that is negative or at least the
length of the question sequence makes remove-question return 400
"Invalid question index" and leaves the store unchanged. -/
theorem removeQuestion_out_of_range
    (store : Store) (d l t s y : String) (i : Int) (e : Exam)
    (hd : d ≠ "") (hl : l ≠ "") (ht : t ≠ "") (hs : s ≠ "") (hy : y ≠ "")
    (hfind : store.find? (matchesFilter d l t s y) = some e)
    (hi : i < 0 ∨ (e.exam.length : Int) ≤ i) :
    removeQuestion store
        { division := some d, level := some l, term := some t,
          subject := some s, year := some y, index := some (.num i) }
      = (.badRequest "Invalid question index", store) ∧
    ((removeQuestion store
        { division := some d, level := some l, term := some t,
          subject := some s, year := some y, index := some (.num i) }).1).status
      = 400 := by
  have hguard : (jsLtZero (.num i) || jsGeLen (.num i) e.exam.length) = true := by
    simp only [jsLtZero, jsGeLen, jsToNumber, Bool.or_eq_true, decide_eq_true_eq]
    rcases hi with h | h
    · exact Or.inl h
    · exact Or.inr (by omega)
  unfold removeQuestion
  dsimp only
  rw [if_neg (by simp [hd, hl, ht, hs, hy]), hfind]
  dsimp only
  rw [if_pos (by simp [hguard])]
  exact ⟨rfl, rfl⟩

/-- C4: an absent index is rejected up front with 400 "All fields are
required" and the store untouched, while `index = 0` passes the presence
check (`index === undefined` distinguishes the two) and is treated as a
valid position: against a matched exam with a non-empty question sequence
the handler answers neither 400, and when the questions remaining after
the head removal revalidate, it answers 200 with the head question
removed. -/
theorem removeQuestion_absent_index_vs_zero
    (store : Store) (d l t s y : String) (e : Exam)
    (hd : d ≠ "") (hl : l ≠ "") (ht : t ≠ "") (hs : s ≠ "") (hy : y ≠ "")
    (hfind : store.find? (matchesFilter d l t s y) = some e)
    (hlen : 0 < e.exam.length) :
    removeQuestion store
        { division := some d, level := some l, term := some t,
          subject := some s, year := some y, index := none }
      = (.badRequest "All fields are required", store) ∧
    (∀ msg : String,
      (removeQuestion store
          { division := some d, level := some l, term := some t,
            subject := some s, year := some y, index := some (.num 0) }).1
        ≠ .badRequest msg) ∧
    (e.exam.tail.all validQuestion = true →
      ((removeQuestion store
          { division := some d, level := some l, term := some t,
            subject := some s, year := some y, index := some (.num 0) }).1).status
        = 200 ∧
      ∃ e' : Exam,
        (removeQuestion store
            { division := some d, level := some l, term := some t,
              subject := some s, year := some y, index := some (.num 0) }).1
          = .ok "Question removed successfully" e' ∧
        e'.exam = e.exam.tail) := by
  have hguard : (jsLtZero (.num 0) || jsGeLen (.num 0) e.exam.length) = false := by
    simp only [jsLtZero, jsGeLen, jsToNumber, Bool.or_eq_false_iff,
      decide_eq_false_iff_not, not_lt, not_le]
    constructor <;> omega
  have hstart : spliceStart (.num 0) e.exam.length = 0 := by
    simp only [spliceStart, jsToNumber]
    rw [(by decide : jsTrunc { num := (0 : Int), den := 1 } = 0)]
    rw [if_neg (by omega)]
    omega
  have hred : removeQuestion store
      { division := some d, level := some l, term := some t,
        subject := some s, year := some y, index := some (.num 0) }
      = (if validExam { e with exam := e.exam.tail } then
           (.ok "Question removed successfully" { e with exam := e.exam.tail },
             replaceFirst (matchesFilter d l t s y) { e with exam := e.exam.tail } store)
         else (.serverError "Failed to remove question", store)) := by
    unfold removeQuestion
    dsimp only
    rw [if_neg (by simp [hd, hl, ht, hs, hy]), hfind]
    dsimp only
    rw [if_neg (by simp [hguard]), hstart, spliceRemoveOne_eq_eraseIdx,
      eraseIdx_zero_eq_tail]
  refine ⟨rfl, ?_, ?_⟩
  · intro msg
    rw [hred]
    split <;> simp
  · intro htail
    have hval : validExam { e with exam := e.exam.tail } = true :=
      validExam_of_matched d l t s y e _ hd hl ht hs hy (List.find?_some hfind) htail
    rw [hred, if_pos hval]
    exact ⟨rfl, _, rfl, rfl⟩

/-- C10, counterexample to the claim as stated: the claim promises a 200
head removal for every matched non-empty exam and non-numeric index, but
the save after the splice re-validates the whole document, so with a
remaining one-choice question the handler answers 500, not 200. -/
theorem removeQuestion_non_numeric_sibling_invalid_500 :
    strToNumber "abc" = none ∧
    0 < examBad.exam.length ∧
    removeQuestion [examBad]
        { division := some "A", level := some "1", term := some "T1",
          subject := some "Math", year := some "2024",
          index := some (.str "abc") }
      = (.serverError "Failed to remove question", [examBad]) ∧
    ((removeQuestion [examBad]
        { division := some "A", level := some "1", term := some "T1",
          subject := some "Math", year := some "2024",
          index := some (.str "abc") }).1).status ≠ 200 := by
  decide

/-- C10 as amended: the range guard only rejects numeric indices.  With an
index whose string is not a JS numeric literal (`ToNumber` gives NaN), both
comparisons `index < 0` and `index >= length` are false, so against a
matched exam with a non-empty question sequence the handler does not
return 400; `splice` coerces the NaN start to 0 and — provided the
questions remaining after the head removal revalidate — the head question
is removed with a 200 response. -/
theorem removeQuestion_non_numeric_index
    (store : Store) (d l t s y sIdx : String) (e : Exam)
    (hd : d ≠ "") (hl : l ≠ "") (ht : t ≠ "") (hs : s ≠ "") (hy : y ≠ "")
    (hnan : strToNumber sIdx = none)
    (hfind : store.find? (matchesFilter d l t s y) = some e)
    (_hlen : 0 < e.exam.length)
    (htail : e.exam.tail.all validQuestion = true) :
    ((removeQuestion store
        { division := some d, level := some l, term := some t,
          subject := some s, year := some y, index := some (.str sIdx) }).1).status
      = 200 ∧
    (removeQuestion store
        { division := some d, level := some l, term := some t,
          subject := some s, year := some y, index := some (.str sIdx) }).1
      ≠ .badRequest "Invalid question index" ∧
    ∃ e' : Exam,
      (removeQuestion store
          { division := some d, level := some l, term := some t,
            subject := some s, year := some y, index := some (.str sIdx) }).1
        = .ok "Question removed successfully" e' ∧
      e'.exam = e.exam.tail := by
  have hval : validExam { e with exam := e.exam.tail } = true :=
    validExam_of_matched d l t s y e _ hd hl ht hs hy (List.find?_some hfind) htail
  have hguard : (jsLtZero (.str sIdx) || jsGeLen (.str sIdx) e.exam.length) = false := by
    simp [jsLtZero, jsGeLen, jsToNumber, hnan]
  have hstart : spliceStart (.str sIdx) e.exam.length = 0 := by
    simp [spliceStart, jsToNumber, hnan]
  unfold removeQuestion
  dsimp only
  rw [if_neg (by simp [hd, hl, ht, hs, hy]), hfind]
  dsimp only
  rw [if_neg (by simp [hguard]), hstart, spliceRemoveOne_eq_eraseIdx,
    eraseIdx_zero_eq_tail, if_pos hval]
  exact ⟨rfl, by simp, _, rfl, rfl⟩

/-- C5, counterexample to the claim as stated: the claim promises 404 for
every request whose filter matches nothing, but the update validators run
client-side before the query, so a no-match request pushing a one-entry
choices array answers 500, not 404 (the store is still unchanged). -/
theorem addQuestion_no_match_invalid_choices_500 :
    [examA].find? (matchesFilter "B" "1" "T1" "Math" "2024") = none ∧
    addQuestion [examA]
        { division := some "B", level := some "1", term := some "T1",
          subject := some "Math", year := some "2024",
          question := some "5+5?", choices := some ["10"] }
      = (.serverError "Failed to add question", [examA]) ∧
    ((addQuestion [examA]
        { division := some "B", level := some "1", term := some "T1",
          subject := some "Math", year := some "2024",
          question := some "5+5?", choices := some ["10"] }).1).status ≠ 404 := by
  decide

/-- C5 as amended: an append-question request whose pushed question passes
update validation (non-empty text, at least two choices) and whose five
metadata fields match no stored exam returns 404 and leaves every document
in the store unchanged. -/
theorem addQuestion_no_match
    (store : Store) (d l t s y q : String) (cs : List String)
    (hd : d ≠ "") (hl : l ≠ "") (ht : t ≠ "") (hs : s ≠ "") (hy : y ≠ "")
    (hq : q ≠ "") (hcs : 2 ≤ cs.length)
    (hfind : store.find? (matchesFilter d l t s y) = none) :
    addQuestion store
        { division := some d, level := some l, term := some t,
          subject := some s, year := some y,
          question := some q, choices := some cs }
      = (.notFound "Exam document not found", store) ∧
    ((addQuestion store
        { division := some d, level := some l, term := some t,
          subject := some s, year := some y,
          question := some q, choices := some cs }).1).status = 404 := by
  have hval : validQuestion { question := q, choices := cs } = true := by
    simp only [validQuestion, Bool.and_eq_true, decide_eq_true_eq]
    exact ⟨hq, hcs⟩
  unfold addQuestion
  dsimp only
  rw [if_neg (by simp [hd, hl, ht, hs, hy, hq])]
  rw [if_pos (by simp [hval]), hfind]
  exact ⟨rfl, rfl⟩

/-- C7: appending a question whose choices array has fewer than two entries
(the variants whose schema carries the `val.length >= 2` validator, with
`runValidators: true`) surfaces the validation failure on the catch path as
500 "Failed to add question", and the matched exam document is not
mutated. -/
theorem addQuestion_too_few_choices
    (store : Store) (d l t s y q : String) (cs : List String) (e : Exam)
    (hd : d ≠ "") (hl : l ≠ "") (ht : t ≠ "") (hs : s ≠ "") (hy : y ≠ "")
    (hq : q ≠ "") (hcs : cs.length < 2)
    (hfind : store.find? (matchesFilter d l t s y) = some e) :
    addQuestion store
        { division := some d, level := some l, term := some t,
          subject := some s, year := some y,
          question := some q, choices := some cs }
      = (.serverError "Failed to add question", store) ∧
    ((addQuestion store
        { division := some d, level := some l, term := some t,
          subject := some s, year := some y,
          question := some q, choices := some cs }).1).status = 500 := by
  have hval : validQuestion { question := q, choices := cs } = false := by
    simp only [validQuestion, Bool.and_eq_false_iff, decide_eq_false_iff_not]
    right
    omega
  unfold addQuestion
  dsimp only
  rw [if_neg (by simp [hd, hl, ht, hs, hy, hq])]
  rw [if_neg (by simp [hval])]
  exact ⟨rfl, rfl⟩

/-- C2, counterexample to the claim as stated: the claim quantifies over
every request carrying a question text and a choices array, but with a
one-entry choices array against a matched exam the `$push` fails the
schema's minimum-choices validation and the handler answers 500, not 200
with the appended question. -/
theorem addQuestion_one_choice_not_ok :
    (addQuestion [examA]
        { division := some "A", level := some "1", term := some "T1",
          subject := some "Math", year := some "2024",
          question := some "5+5?", choices := some ["10"] })
      = (.serverError "Failed to add question", [examA]) ∧
    ((addQuestion [examA]
        { division := some "A", level := some "1", term := some "T1",
          subject := some "Math", year := some "2024",
          question := some "5+5?", choices := some ["10"] }).1).status ≠ 200 := by
  decide

/-- C2 as amended: for a request supplying the five metadata fields, a
non-empty question text and a choices array with at least two entries, if
a stored exam matches the metadata filter then append-question returns 200
with the updated exam: the question sequence is the old one with the new
question appended at the end, and every other field is unchanged. -/
theorem addQuestion_appends
    (store : Store) (d l t s y q : String) (cs : List String) (e : Exam)
    (hd : d ≠ "") (hl : l ≠ "") (ht : t ≠ "") (hs : s ≠ "") (hy : y ≠ "")
    (hq : q ≠ "") (hcs : 2 ≤ cs.length)
    (hfind : store.find? (matchesFilter d l t s y) = some e) :
    ((addQuestion store
        { division := some d, level := some l, term := some t,
          subject := some s, year := some y,
          question := some q, choices := some cs }).1).status = 200 ∧
    ∃ e' : Exam,
      addQuestion store
          { division := some d, level := some l, term := some t,
            subject := some s, year := some y,
            question := some q, choices := some cs }
        = (.ok "Question added successfully" e',
           replaceFirst (matchesFilter d l t s y) e' store) ∧
      e'.exam = e.exam ++ [{ question := q, choices := cs }] ∧
      e'.division = e.division ∧ e'.level = e.level ∧ e'.term = e.term ∧
      e'.subject = e.subject ∧ e'.year = e.year := by
  have hval : validQuestion { question := q, choices := cs } = true := by
    simp only [validQuestion, Bool.and_eq_true, decide_eq_true_eq]
    exact ⟨hq, hcs⟩
  unfold addQuestion
  dsimp only
  rw [if_neg (by simp [hd, hl, ht, hs, hy, hq])]
  rw [if_pos (by simp [hval]), hfind]
  exact ⟨rfl, _, rfl, rfl, rfl, rfl, rfl, rfl, rfl⟩

/-- C6, counterexample to the claim as stated: the claim includes an empty
question list among the rejected inputs, but in JavaScript an empty array
is truthy, so `!exam` is false: a create request whose `exam` field is `[]`
(all five metadata strings present) passes the guard, is persisted, and is
answered 201, not 400. -/
theorem createExam_empty_list_created :
    createExam []
        { division := some "A", level := some "1", term := some "T1",
          subject := some "Math", year := some "2024", exam := some [] }
      = (.created "Exam created successfully",
         [{ division := "A", level := "1", term := "T1", subject := "Math",
            year := "2024", exam := [] }]) ∧
    ((createExam []
        { division := some "A", level := some "1", term := some "T1",
          subject := some "Math", year := some "2024", exam := some [] }).1).status
      ≠ 400 ∧
    (createExam []
        { division := some "A", level := some "1", term := some "T1",
          subject := some "Math", year := some "2024", exam := some [] }).2
      ≠ ([] : Store) := by
  decide

/-- C6 as amended: a create-exam request in which one of the five metadata
string fields is missing or empty, or the question-list field is missing
(an empty but present list passes the guard), is answered 400 "All fields
are required" before any store interaction, and no document is
persisted. -/
theorem createExam_missing_field
    (store : Store) (req : CreateReq)
    (h : req.division = none ∨ req.division = some "" ∨
         req.level = none ∨ req.level = some "" ∨
         req.term = none ∨ req.term = some "" ∨
         req.subject = none ∨ req.subject = some "" ∨
         req.year = none ∨ req.year = some "" ∨
         req.exam = none) :
    createExam store req = (.badRequest "All fields are required", store) := by
  obtain ⟨d, l, t, s, y, ex⟩ := req
  dsimp only at h
  cases d <;> cases l <;> cases t <;> cases s <;> cases y <;> cases ex <;>
    first
      | rfl
      | (simp only [Option.some.injEq, reduceCtorEq, false_or, or_false] at h
         rcases h with h | h | h | h | h <;> subst h <;> simp [createExam])

/-- Closed witness for the amended C1 theorem: removing index 1 of the
concrete three-question exam, whose remaining questions revalidate. -/
theorem removeQuestion_in_range_witness :
    [examA].find? (matchesFilter "A" "1" "T1" "Math" "2024") = some examA ∧
    1 < examA.exam.length ∧
    (examA.exam.eraseIdx 1).all validQuestion = true ∧
    ((((removeQuestion [examA]
        { division := some "A", level := some "1", term := some "T1",
          subject := some "Math", year := some "2024",
          index := some (.num 1) }).1).status = 200) ∧
     ∃ e' : Exam,
       (removeQuestion [examA]
           { division := some "A", level := some "1", term := some "T1",
             subject := some "Math", year := some "2024",
             index := some (.num 1) }).1
         = .ok "Question removed successfully" e' ∧
       e'.exam.length + 1 = examA.exam.length ∧
       (∀ j : Nat, j < 1 → e'.exam[j]? = examA.exam[j]?) ∧
       (∀ j : Nat, 1 ≤ j → e'.exam[j]? = examA.exam[j + 1]?)) :=
  ⟨by decide, by decide, by decide,
   removeQuestion_in_range [examA] "A" "1" "T1" "Math" "2024" 1 examA
     (by decide) (by decide) (by decide) (by decide) (by decide)
     (by decide) (by decide) (by decide)⟩

/-- Closed witness for the C3 theorem: index `-1` against the concrete
three-question exam. -/
theorem removeQuestion_out_of_range_witness :
    [examA].find? (matchesFilter "A" "1" "T1" "Math" "2024") = some examA ∧
    ((-1 : Int) < 0 ∨ ((examA.exam.length : Int) ≤ -1)) ∧
    (removeQuestion [examA]
        { division := some "A", level := some "1", term := some "T1",
          subject := some "Math", year := some "2024",
          index := some (.num (-1)) }
      = (.badRequest "Invalid question index", [examA]) ∧
     ((removeQuestion [examA]
        { division := some "A", level := some "1", term := some "T1",
          subject := some "Math", year := some "2024",
          index := some (.num (-1)) }).1).status = 400) :=
  ⟨by decide, by decide,
   removeQuestion_out_of_range [examA] "A" "1" "T1" "Math" "2024" (-1) examA
     (by decide) (by decide) (by decide) (by decide) (by decide)
     (by decide) (by decide)⟩

/-- Closed witness for the C4 theorem: an absent index versus index 0
against the concrete three-question exam, whose tail revalidates. -/
theorem removeQuestion_absent_index_vs_zero_witness :
    [examA].find? (matchesFilter "A" "1" "T1" "Math" "2024") = some examA ∧
    0 < examA.exam.length ∧
    (removeQuestion [examA]
        { division := some "A", level := some "1", term := some "T1",
          subject := some "Math", year := some "2024", index := none }
      = (.badRequest "All fields are required", [examA]) ∧
     (∀ msg : String,
       (removeQuestion [examA]
           { division := some "A", level := some "1", term := some "T1",
             subject := some "Math", year := some "2024",
             index := some (.num 0) }).1
         ≠ .badRequest msg) ∧
     (examA.exam.tail.all validQuestion = true →
       ((removeQuestion [examA]
           { division := some "A", level := some "1", term := some "T1",
             subject := some "Math", year := some "2024",
             index := some (.num 0) }).1).status = 200 ∧
       ∃ e' : Exam,
         (removeQuestion [examA]
             { division := some "A", level := some "1", term := some "T1",
               subject := some "Math", year := some "2024",
               index := some (.num 0) }).1
           = .ok "Question removed successfully" e' ∧
         e'.exam = examA.exam.tail)) :=
  ⟨by decide, by decide,
   removeQuestion_absent_index_vs_zero [examA] "A" "1" "T1" "Math" "2024" examA
     (by decide) (by decide) (by decide) (by decide) (by decide)
     (by decide) (by decide)⟩

/-- Closed witness for the amended C10 theorem: the non-numeric index
`"abc"` against the concrete three-question exam, whose tail
revalidates. -/
theorem removeQuestion_non_numeric_index_witness :
    strToNumber "abc" = none ∧
    [examA].find? (matchesFilter "A" "1" "T1" "Math" "2024") = some examA ∧
    0 < examA.exam.length ∧
    examA.exam.tail.all validQuestion = true ∧
    (((removeQuestion [examA]
        { division := some "A", level := some "1", term := some "T1",
          subject := some "Math", year := some "2024",
          index := some (.str "abc") }).1).status = 200 ∧
     (removeQuestion [examA]
        { division := some "A", level := some "1", term := some "T1",
          subject := some "Math", year := some "2024",
          index := some (.str "abc") }).1
       ≠ .badRequest "Invalid question index" ∧
     ∃ e' : Exam,
       (removeQuestion [examA]
           { division := some "A", level := some "1", term := some "T1",
             subject := some "Math", year := some "2024",
             index := some (.str "abc") }).1
         = .ok "Question removed successfully" e' ∧
       e'.exam = examA.exam.tail) :=
  ⟨by decide, by decide, by decide, by decide,
   removeQuestion_non_numeric_index [examA] "A" "1" "T1" "Math" "2024" "abc" examA
     (by decide) (by decide) (by decide) (by decide) (by decide)
     (by decide) (by decide) (by decide) (by decide)⟩

/-- Closed witness for the amended C5 theorem: a valid two-choice question
with a filter on division "B" matching nothing in a store holding only the
division-"A" exam. -/
theorem addQuestion_no_match_witness :
    2 ≤ [("9" : String), "10"].length ∧
    [examA].find? (matchesFilter "B" "1" "T1" "Math" "2024") = none ∧
    (addQuestion [examA]
        { division := some "B", level := some "1", term := some "T1",
          subject := some "Math", year := some "2024",
          question := some "5+5?", choices := some ["9", "10"] }
      = (.notFound "Exam document not found", [examA]) ∧
     ((addQuestion [examA]
        { division := some "B", level := some "1", term := some "T1",
          subject := some "Math", year := some "2024",
          question := some "5+5?", choices := some ["9", "10"] }).1).status = 404) :=
  ⟨by decide, by decide,
   addQuestion_no_match [examA] "B" "1" "T1" "Math" "2024" "5+5?" ["9", "10"]
     (by decide) (by decide) (by decide) (by decide) (by decide)
     (by decide) (by decide) (by decide)⟩

/-- Closed witness for the C7 theorem: a one-entry choices array against
the matched concrete exam. -/
theorem addQuestion_too_few_choices_witness :
    [examA].find? (matchesFilter "A" "1" "T1" "Math" "2024") = some examA ∧
    ([("10" : String)].length < 2) ∧
    (addQuestion [examA]
        { division := some "A", level := some "1", term := some "T1",
          subject := some "Math", year := some "2024",
          question := some "6+6?", choices := some ["10"] }
      = (.serverError "Failed to add question", [examA]) ∧
     ((addQuestion [examA]
        { division := some "A", level := some "1", term := some "T1",
          subject := some "Math", year := some "2024",
          question := some "6+6?", choices := some ["10"] }).1).status = 500) :=
  ⟨by decide, by decide,
   addQuestion_too_few_choices [examA] "A" "1" "T1" "Math" "2024" "6+6?" ["10"] examA
     (by decide) (by decide) (by decide) (by decide) (by decide)
     (by decide) (by decide) (by decide)⟩

/-- Closed witness for the amended C2 theorem: the spec's concrete
scenario, appending `3+3?` with two choices to the matched exam. -/
theorem addQuestion_appends_witness :
    [examA].find? (matchesFilter "A" "1" "T1" "Math" "2024") = some examA ∧
    2 ≤ [("5" : String), "6"].length ∧
    (((addQuestion [examA]
        { division := some "A", level := some "1", term := some "T1",
          subject := some "Math", year := some "2024",
          question := some "3+3?", choices := some ["5", "6"] }).1).status = 200 ∧
     ∃ e' : Exam,
       addQuestion [examA]
           { division := some "A", level := some "1", term := some "T1",
             subject := some "Math", year := some "2024",
             question := some "3+3?", choices := some ["5", "6"] }
         = (.ok "Question added successfully" e',
            replaceFirst (matchesFilter "A" "1" "T1" "Math" "2024") e' [examA]) ∧
       e'.exam = examA.exam ++ [{ question := "3+3?", choices := ["5", "6"] }] ∧
       e'.division = examA.division ∧ e'.level = examA.level ∧
       e'.term = examA.term ∧ e'.subject = examA.subject ∧
       e'.year = examA.year) :=
  ⟨by decide, by decide,
   addQuestion_appends [examA] "A" "1" "T1" "Math" "2024" "3+3?" ["5", "6"] examA
     (by decide) (by decide) (by decide) (by decide) (by decide)
     (by decide) (by decide) (by decide)⟩

/-- Closed witness for the amended C6 theorem: a create request with the
division field absent is rejected with the store untouched. -/
theorem createExam_missing_field_witness :
    (({ division := none, level := some "1", term := some "T1",
        subject := some "Math", year := some "2024",
        exam := some [q1] } : CreateReq).division = none ∨
     ({ division := none, level := some "1", term := some "T1",
        subject := some "Math", year := some "2024",
        exam := some [q1] } : CreateReq).division = some "" ∨
     ({ division := none, level := some "1", term := some "T1",
        subject := some "Math", year := some "2024",
        exam := some [q1] } : CreateReq).level = none ∨
     ({ division := none, level := some "1", term := some "T1",
        subject := some "Math", year := some "2024",
        exam := some [q1] } : CreateReq).level = some "" ∨
     ({ division := none, level := some "1", term := some "T1",
        subject := some "Math", year := some "2024",
        exam := some [q1] } : CreateReq).term = none ∨
     ({ division := none, level := some "1", term := some "T1",
        subject := some "Math", year := some "2024",
        exam := some [q1] } : CreateReq).term = some "" ∨
     ({ division := none, level := some "1", term := some "T1",
        subject := some "Math", year := some "2024",
        exam := some [q1] } : CreateReq).subject = none ∨
     ({ division := none, level := some "1", term := some "T1",
        subject := some "Math", year := some "2024",
        exam := some [q1] } : CreateReq).subject = some "" ∨
     ({ division := none, level := some "1", term := some "T1",
        subject := some "Math", year := some "2024",
        exam := some [q1] } : CreateReq).year = none ∨
     ({ division := none, level := some "1", term := some "T1",
        subject := some "Math", year := some "2024",
        exam := some [q1] } : CreateReq).year = some "" ∨
     ({ division := none, level := some "1", term := some "T1",
        subject := some "Math", year := some "2024",
        exam := some [q1] } : CreateReq).exam = none) ∧
    createExam [examA]
      { division := none, level := some "1", term := some "T1",
        subject := some "Math", year := some "2024", exam := some [q1] }
      = (.badRequest "All fields are required", [examA]) :=
  ⟨by decide,
   createExam_missing_field [examA]
     { division := none, level := some "1", term := some "T1",
       subject := some "Math", year := some "2024", exam := some [q1] }
     (by decide)⟩
